import Mathlib

/-!
Shallow embedding of the verification-harness scripts of this repository:
`verification/verify_chart_optimization.py`, `verification/take_screenshot.py`
and `verification/verify_chart.py`.  Each script is modelled as a pure
function from an environment oracle (which connection attempts succeed,
what the console log contains after a given amount of elapsed waiting,
which browser operations fail) to the ordered trace of externally visible
events it performs together with its outcome (returned value or raised
exception).  Time is modelled as the total number of milliseconds of
explicit sleeps/waits performed so far.
-/

namespace ChartHarness

/-- Prefix test on character lists, used to embed Python substring search. -/
def charListPrefix : List Char → List Char → Bool
  | [], _ => true
  | _ :: _, [] => false
  | a :: as, b :: bs => a == b && charListPrefix as bs

/-- Occurrence test: does `needle` occur as a contiguous run inside the list. -/
def charListSub (needle : List Char) : List Char → Bool
  | [] => charListPrefix needle []
  | c :: cs => charListPrefix needle (c :: cs) || charListSub needle cs

/-- Embedding of Python `needle in hay` for strings (substring containment),
as used by `any("CHART_CREATED" in log for log in logs)`. -/
def pyIn (needle hay : String) : Bool := charListSub needle.toList hay.toList

/-- Externally visible actions performed by the harness scripts, in order. -/
inductive Event where
  | killPort3000
  | spawnServer
  | connectAttempt (i : Nat) (timeoutSec : Nat)
  | sleepMs (ms : Nat)
  | printStderr
  | launchBrowser
  | newPage
  | subscribeConsole
  | subscribePageError
  | navigate (url : String)
  | pollCheck (i : Nat)
  | click (name : String)
  | screenshot (path : String)
  | screenshotFailed (path : String)
  | waitSelector (sel : String)
  | closeBrowser
  | killpg
  | printLine (s : String)
  deriving Repr, DecidableEq

/-- Exceptions the scripts can raise. -/
inductive Err where
  | serverFailedToStart
  | navigationError
  | screenshotError
  | selectorTimeout
  deriving Repr, DecidableEq

/-- Result of a run: the returned Python value, or a propagated exception.
`retResult` carries the dict returned by `verify_chart_optimization.verify`
as an ordered key/value list. -/
inductive Outcome where
  | retResult (d : List (String × Nat))
  | retFalse
  | retPath (path : String)
  | raised (e : Err)
  deriving Repr, DecidableEq

/-- Environment oracle resolving everything outside the scripts:
whether connection attempt `i` sees the port open, the console log contents
after `t` milliseconds of waiting, and which browser operations succeed. -/
structure Env where
  connectOk : Nat → Bool
  logsAt : Nat → List String
  navOk : Bool
  clickOk : Bool
  screenshotOk : Bool
  tsNavOk : Bool
  tsScreenshotOk : Bool
  vcNavOk : Bool
  vcCanvasOk : Bool
  vcShotOk : Bool
  errShotOk : Bool
  closeOk : Bool

/-- Readiness loop of `verify_chart_optimization.py` (lines 24-43): attempt a
1-second-timeout connect; on success break immediately; otherwise sleep 2s and,
when this was the last allowed attempt, print the captured stderr and raise.
`fuel` is the number of remaining iterations, `i` the current index, `c` the
clock; returns (trace, clock, raised error if any). -/
def probeVCO (env : Env) : Nat → Nat → Nat → List Event × Nat × Option Err
  | 0, _, c => ([], c, none)
  | 1, i, c =>
    if env.connectOk i then ([Event.connectAttempt i 1], c, none)
    else
      ([Event.connectAttempt i 1, Event.sleepMs 2000, Event.printStderr],
        c + 2000, some Err.serverFailedToStart)
  | fuel + 2, i, c =>
    if env.connectOk i then ([Event.connectAttempt i 1], c, none)
    else
      let r := probeVCO env (fuel + 1) (i + 1) (c + 2000)
      (Event.connectAttempt i 1 :: Event.sleepMs 2000 :: r.1, r.2)

/-- Readiness loop of `take_screenshot.py` (lines 20-31): identical probing,
but exhausting the budget simply ends the loop — nothing is raised. -/
def probeTS (env : Env) : Nat → Nat → Nat → List Event × Nat
  | 0, _, c => ([], c)
  | fuel + 1, i, c =>
    if env.connectOk i then ([Event.connectAttempt i 1], c)
    else
      let r := probeTS env fuel (i + 1) (c + 2000)
      (Event.connectAttempt i 1 :: Event.sleepMs 2000 :: r.1, r.2)

/-- Marker poll loop of `verify_chart_optimization.py` (lines 66-69): up to 30
iterations; each checks whether any accumulated log line contains
"CHART_CREATED" (substring), breaking on success, else waiting 500 ms. -/
def pollLoop (env : Env) : Nat → Nat → Nat → List Event × Nat
  | 0, _, c => ([], c)
  | fuel + 1, iter, c =>
    if (env.logsAt c).any (fun log => pyIn "CHART_CREATED" log) then
      ([Event.pollCheck iter], c)
    else
      let r := pollLoop env fuel (iter + 1) (c + 500)
      (Event.pollCheck iter :: Event.sleepMs 500 :: r.1, r.2)

def vcoUrl : String := "http://localhost:3000/day-trading"

/-- Body of `verify_chart_optimization.verify` after a successful navigation
(lines 63-107): poll for the marker, settle 2s, count markers; zero initial
markers returns False; then click "15m" (a click failure returns False), wait
3s, recount, take the success-path screenshot (unprotected: its failure
raises), and return the three-field dict. -/
def vcoBodyRest (env : Env) (c : Nat) : List Event × Outcome :=
  if (env.logsAt ((pollLoop env 30 0 c).2 + 2000)).count "CHART_CREATED" = 0 then
    ((pollLoop env 30 0 c).1 ++ [Event.sleepMs 2000], Outcome.retFalse)
  else if env.clickOk = false then
    ((pollLoop env 30 0 c).1 ++ [Event.sleepMs 2000, Event.click "15m"],
      Outcome.retFalse)
  else if env.screenshotOk then
    ((pollLoop env 30 0 c).1 ++ [Event.sleepMs 2000, Event.click "15m",
      Event.sleepMs 3000, Event.screenshot "verification/chart.png"],
      Outcome.retResult
        [("initial", (env.logsAt ((pollLoop env 30 0 c).2 + 2000)).count "CHART_CREATED"),
          ("total", (env.logsAt ((pollLoop env 30 0 c).2 + 2000 + 3000)).count "CHART_CREATED"),
          ("updates", (env.logsAt ((pollLoop env 30 0 c).2 + 2000 + 3000)).count "DATA_UPDATED")])
  else
    ((pollLoop env 30 0 c).1 ++ [Event.sleepMs 2000, Event.click "15m",
      Event.sleepMs 3000, Event.screenshot "verification/chart.png"],
      Outcome.raised Err.screenshotError)

/-- Browser part of `verify_chart_optimization.verify` (lines 45-107): launch,
open one page, install the console and pageerror subscriptions, then navigate
(a navigation failure is printed and re-raised). -/
def vcoBody (env : Env) (c : Nat) : List Event × Outcome :=
  if env.navOk then
    ([Event.launchBrowser, Event.newPage, Event.subscribeConsole,
      Event.subscribePageError, Event.navigate vcoUrl] ++ (vcoBodyRest env c).1,
      (vcoBodyRest env c).2)
  else
    ([Event.launchBrowser, Event.newPage, Event.subscribeConsole,
      Event.subscribePageError, Event.navigate vcoUrl],
      Outcome.raised Err.navigationError)

/-- Whole of `verify_chart_optimization.verify`: kill anything on port 3000,
spawn the server in its own process group, then run the body under
`try/finally` whose `finally` does `killpg` + `wait` wrapped in a bare
`except: pass` — so teardown always happens exactly once, never alters the
outcome, and a process that already exited makes it a no-op. -/
def vcoVerify (env : Env) : List Event × Outcome :=
  match (probeVCO env 60 0 0).2.2 with
  | some e =>
    (Event.killPort3000 :: Event.spawnServer ::
      ((probeVCO env 60 0 0).1 ++ [Event.killpg]), Outcome.raised e)
  | none =>
    (Event.killPort3000 :: Event.spawnServer ::
      ((probeVCO env 60 0 0).1 ++ (vcoBody env (probeVCO env 60 0 0).2.1).1 ++
        [Event.killpg]),
      (vcoBody env (probeVCO env 60 0 0).2.1).2)

/-- Exit status of `verify_chart_optimization.py` run as a script (lines
117-119): `verify()` is called and its result printed; there is no
`sys.exit`, so the interpreter exits 0 unless an exception propagates. -/
def vcoMain (env : Env) : Nat :=
  match (vcoVerify env).2 with
  | Outcome.raised _ => 1
  | _ => 0

def tsUrl : String := "http://localhost:3000/day-trading"

/-- Whole of `take_screenshot.verify`: kill port 3000, spawn, probe (never
raising), launch, open a page (no subscriptions), navigate, wait 5s, take the
screenshot (unprotected) and return its path; same swallowed `killpg`
teardown in `finally`. -/
def tsVerify (env : Env) : List Event × Outcome :=
  if env.tsNavOk then
    if env.tsScreenshotOk then
      (Event.killPort3000 :: Event.spawnServer :: ((probeTS env 60 0 0).1 ++
        [Event.launchBrowser, Event.newPage, Event.navigate tsUrl,
          Event.sleepMs 5000, Event.screenshot "verification/verification.png",
          Event.killpg]),
        Outcome.retPath "verification/verification.png")
    else
      (Event.killPort3000 :: Event.spawnServer :: ((probeTS env 60 0 0).1 ++
        [Event.launchBrowser, Event.newPage, Event.navigate tsUrl,
          Event.sleepMs 5000, Event.screenshot "verification/verification.png",
          Event.killpg]),
        Outcome.raised Err.screenshotError)
  else
    (Event.killPort3000 :: Event.spawnServer :: ((probeTS env 60 0 0).1 ++
      [Event.launchBrowser, Event.newPage, Event.navigate tsUrl, Event.killpg]),
      Outcome.raised Err.navigationError)

def vcUrl : String := "http://localhost:3000/day-trading"

/-- `verify_chart.verify_chart` (lines 6-21): navigate, wait for the canvas
selector, sleep 3s, write the screenshot; any step may raise. -/
def vcBody (env : Env) : List Event × Option Err :=
  if env.vcNavOk = false then ([Event.navigate vcUrl], some Err.navigationError)
  else if env.vcCanvasOk = false then
    ([Event.navigate vcUrl, Event.waitSelector "canvas"], some Err.selectorTimeout)
  else if env.vcShotOk = false then
    ([Event.navigate vcUrl, Event.waitSelector "canvas", Event.sleepMs 3000,
      Event.screenshot "verification/chart_verification.png"],
      some Err.screenshotError)
  else
    ([Event.navigate vcUrl, Event.waitSelector "canvas", Event.sleepMs 3000,
      Event.screenshot "verification/chart_verification.png"], none)

/-- `verify_chart.py` run as a script (lines 23-36): any exception from the
body is caught and printed, then the diagnostic error screenshot is attempted
inside `try/except: pass` (its failure is swallowed); `finally` closes the
browser.  Returns (trace, exit status): the interpreter exits 0 in every case
except an exception escaping the unprotected `browser.close()`. -/
def vcMain (env : Env) : List Event × Nat :=
  match (vcBody env).2 with
  | none =>
    (Event.launchBrowser :: Event.newPage :: ((vcBody env).1 ++
      [Event.printLine "Verification successful", Event.closeBrowser]),
      if env.closeOk then 0 else 1)
  | some _ =>
    (Event.launchBrowser :: Event.newPage :: ((vcBody env).1 ++
      [Event.printLine "Verification failed"] ++
      (if env.errShotOk then [Event.screenshot "verification/error_screenshot.png"]
        else [Event.screenshotFailed "verification/error_screenshot.png"]) ++
      [Event.closeBrowser]),
      if env.closeOk then 0 else 1)

/-- Keys of the structured result dict, when the outcome is one. -/
def resultKeys : Outcome → List String
  | Outcome.retResult d => d.map Prod.fst
  | _ => []

def isAttempt : Event → Bool
  | Event.connectAttempt _ _ => true
  | _ => false

def isSleep : Event → Bool
  | Event.sleepMs _ => true
  | _ => false

def isPollCheck : Event → Bool
  | Event.pollCheck _ => true
  | _ => false

def isNavigate : Event → Bool
  | Event.navigate _ => true
  | _ => false

def isScreenshot : Event → Bool
  | Event.screenshot _ => true
  | _ => false

def isPrintLine : Event → Bool
  | Event.printLine _ => true
  | _ => false

/-- Number of connection attempts recorded in a trace. -/
def attemptsOf (tr : List Event) : Nat := (tr.filter isAttempt).length

/-- Number of sleeps recorded in a trace. -/
def sleepsOf (tr : List Event) : Nat := (tr.filter isSleep).length

/-- A fully cooperative environment: the port is open at once, every browser
operation succeeds, and the log holds exactly one creation marker forever. -/
def goodEnv : Env where
  connectOk := fun _ => true
  logsAt := fun _ => ["CHART_CREATED"]
  navOk := true
  clickOk := true
  screenshotOk := true
  tsNavOk := true
  tsScreenshotOk := true
  vcNavOk := true
  vcCanvasOk := true
  vcShotOk := true
  errShotOk := true
  closeOk := true

/-- Environment whose port opens on the third attempt. -/
def thirdTryEnv : Env := { goodEnv with connectOk := fun i => decide (i = 2) }

/-- Environment in which the port never becomes reachable while every browser
operation would succeed. -/
def noPortEnv : Env := { goodEnv with connectOk := fun _ => false }

/-- Environment in which the page emits no console output at all. -/
def noLogEnv : Env := { goodEnv with logsAt := fun _ => [] }

/-- Environment in which everything succeeds except the success-path
screenshot of `verify_chart_optimization.py`. -/
def shotFailEnv : Env := { goodEnv with screenshotOk := false }

/-- Environment in which `verify_chart.py`'s canvas wait times out. -/
def canvasFailEnv : Env := { goodEnv with vcCanvasOk := false }

/-- Environment reaching the interaction but with a failing click. -/
def clickFailEnv : Env := { goodEnv with clickOk := false }

/-! Helper lemmas about the probe, poll and body traces. -/

lemma charListPrefix_self : ∀ l : List Char, charListPrefix l l = true := by
  intro l
  induction l with
  | nil => rfl
  | cons a as ih => simp [charListPrefix, ih]

lemma pyIn_self (s : String) : pyIn s s = true := by
  unfold pyIn charListSub
  cases h : s.toList with
  | nil => simp [charListPrefix]
  | cons c cs => simp [← h, charListPrefix_self]

lemma count_zero_of_no_sub (L : List String) (m : String)
    (h : L.any (fun s => pyIn m s) = false) : L.count m = 0 := by
  rw [List.count_eq_zero]
  intro hm
  have : L.any (fun s => pyIn m s) = true :=
    List.any_eq_true.mpr ⟨m, hm, pyIn_self m⟩
  rw [h] at this
  exact Bool.false_ne_true this

lemma probeVCO_mem (env : Env) : ∀ f i c, ∀ e ∈ (probeVCO env f i c).1,
    (∃ j, e = Event.connectAttempt j 1) ∨ e = Event.sleepMs 2000 ∨
      e = Event.printStderr := by
  intro f
  induction f with
  | zero => intro i c e he; simp [probeVCO] at he
  | succ n ih =>
    intro i c e he
    cases n with
    | zero =>
      by_cases h : env.connectOk i <;> simp [probeVCO, h] at he
      · exact Or.inl ⟨i, he⟩
      · rcases he with he | he | he
        · exact Or.inl ⟨i, he⟩
        · exact Or.inr (Or.inl he)
        · exact Or.inr (Or.inr he)
    | succ m =>
      by_cases h : env.connectOk i
      · simp [probeVCO, h] at he
        exact Or.inl ⟨i, he⟩
      · have hrw : probeVCO env (m + 1 + 1) i c =
            (Event.connectAttempt i 1 :: Event.sleepMs 2000 ::
              (probeVCO env (m + 1) (i + 1) (c + 2000)).1,
              (probeVCO env (m + 1) (i + 1) (c + 2000)).2) := by
          simp [probeVCO, h]
        rw [hrw] at he
        simp only [List.mem_cons] at he
        rcases he with he | he | he
        · exact Or.inl ⟨i, he⟩
        · exact Or.inr (Or.inl he)
        · exact ih (i + 1) (c + 2000) e he

lemma probeTS_mem (env : Env) : ∀ f i c, ∀ e ∈ (probeTS env f i c).1,
    (∃ j, e = Event.connectAttempt j 1) ∨ e = Event.sleepMs 2000 := by
  intro f
  induction f with
  | zero => intro i c e he; simp [probeTS] at he
  | succ n ih =>
    intro i c e he
    by_cases h : env.connectOk i
    · simp [probeTS, h] at he
      exact Or.inl ⟨i, he⟩
    · have hrw : probeTS env (n + 1) i c =
          (Event.connectAttempt i 1 :: Event.sleepMs 2000 ::
            (probeTS env n (i + 1) (c + 2000)).1,
            (probeTS env n (i + 1) (c + 2000)).2) := by
        simp [probeTS, h]
      rw [hrw] at he
      simp only [List.mem_cons] at he
      rcases he with he | he | he
      · exact Or.inl ⟨i, he⟩
      · exact Or.inr he
      · exact ih (i + 1) (c + 2000) e he

lemma pollLoop_mem (env : Env) : ∀ f it c, ∀ e ∈ (pollLoop env f it c).1,
    (∃ j, e = Event.pollCheck j) ∨ e = Event.sleepMs 500 := by
  intro f
  induction f with
  | zero => intro it c e he; simp [pollLoop] at he
  | succ n ih =>
    intro it c e he
    by_cases h : (env.logsAt c).any (fun log => pyIn "CHART_CREATED" log)
    · simp [pollLoop, h] at he
      exact Or.inl ⟨it, he⟩
    · have hrw : pollLoop env (n + 1) it c =
          (Event.pollCheck it :: Event.sleepMs 500 ::
            (pollLoop env n (it + 1) (c + 500)).1,
            (pollLoop env n (it + 1) (c + 500)).2) := by
        simp [pollLoop, h]
      rw [hrw] at he
      simp only [List.mem_cons] at he
      rcases he with he | he | he
      · exact Or.inl ⟨it, he⟩
      · exact Or.inr he
      · exact ih (it + 1) (c + 500) e he

lemma vcoBodyRest_mem (env : Env) (c : Nat) :
    ∀ e ∈ (vcoBodyRest env c).1,
      (∃ j, e = Event.pollCheck j) ∨ (∃ n, e = Event.sleepMs n) ∨
        e = Event.click "15m" ∨ e = Event.screenshot "verification/chart.png" := by
  have hpl : ∀ e ∈ (pollLoop env 30 0 c).1,
      (∃ j, e = Event.pollCheck j) ∨ (∃ n, e = Event.sleepMs n) ∨
        e = Event.click "15m" ∨ e = Event.screenshot "verification/chart.png" := by
    intro e he
    rcases pollLoop_mem env 30 0 c e he with ⟨j, hj⟩ | h5
    · exact Or.inl ⟨j, hj⟩
    · exact Or.inr (Or.inl ⟨500, h5⟩)
  intro e he
  unfold vcoBodyRest at he
  split_ifs at he <;> simp only [List.mem_append, List.mem_cons,
    List.mem_singleton, List.not_mem_nil, or_false] at he <;>
    rcases he with he | he
  · exact hpl e he
  · exact Or.inr (Or.inl ⟨2000, he⟩)
  · exact hpl e he
  · rcases he with he | he
    · exact Or.inr (Or.inl ⟨2000, he⟩)
    · exact Or.inr (Or.inr (Or.inl he))
  · exact hpl e he
  · rcases he with he | he | he | he
    · exact Or.inr (Or.inl ⟨2000, he⟩)
    · exact Or.inr (Or.inr (Or.inl he))
    · exact Or.inr (Or.inl ⟨3000, he⟩)
    · exact Or.inr (Or.inr (Or.inr he))
  · exact hpl e he
  · rcases he with he | he | he | he
    · exact Or.inr (Or.inl ⟨2000, he⟩)
    · exact Or.inr (Or.inr (Or.inl he))
    · exact Or.inr (Or.inl ⟨3000, he⟩)
    · exact Or.inr (Or.inr (Or.inr he))

lemma probeVCO_sixty_success0 (env : Env) (h : env.connectOk 0 = true) :
    probeVCO env 60 0 0 = ([Event.connectAttempt 0 1], 0, none) := by
  have h60 : (60 : Nat) = 58 + 2 := rfl
  rw [h60]
  simp [probeVCO, h]

lemma pollLoop_thirty_found (env : Env) (c : Nat)
    (h : (env.logsAt c).any (fun log => pyIn "CHART_CREATED" log) = true) :
    pollLoop env 30 0 c = ([Event.pollCheck 0], c) := by
  have h30 : (30 : Nat) = 29 + 1 := rfl
  rw [h30]
  simp [pollLoop, h]

lemma probeVCO_allfail (env : Env) : ∀ f i c, 0 < f →
    (∀ j, i ≤ j → j < i + f → env.connectOk j = false) →
    (probeVCO env f i c).2.2 = some Err.serverFailedToStart ∧
      Event.printStderr ∈ (probeVCO env f i c).1 := by
  intro f
  induction f with
  | zero => intro i c hf; omega
  | succ n ih =>
    intro i c _ hall
    have hi : env.connectOk i = false := hall i (Nat.le_refl i) (by omega)
    cases n with
    | zero => simp [probeVCO, hi]
    | succ m =>
      have hrw : probeVCO env (m + 1 + 1) i c =
          (Event.connectAttempt i 1 :: Event.sleepMs 2000 ::
            (probeVCO env (m + 1) (i + 1) (c + 2000)).1,
            (probeVCO env (m + 1) (i + 1) (c + 2000)).2) := by
        simp [probeVCO, hi]
      have hrec := ih (i + 1) (c + 2000) (by omega)
        (fun j h1 h2 => hall j (by omega) (by omega))
      rw [hrw]
      exact ⟨hrec.1, by simp [hrec.2]⟩

lemma probeVCO_attempts_le (env : Env) : ∀ f i c,
    attemptsOf (probeVCO env f i c).1 ≤ f := by
  intro f
  induction f with
  | zero => intro i c; simp [probeVCO, attemptsOf]
  | succ n ih =>
    intro i c
    cases n with
    | zero =>
      by_cases h : env.connectOk i <;>
        simp [probeVCO, h, attemptsOf, isAttempt, List.filter]
    | succ m =>
      by_cases h : env.connectOk i
      · simp [probeVCO, h, attemptsOf, isAttempt, List.filter]
      · have hrw : probeVCO env (m + 1 + 1) i c =
            (Event.connectAttempt i 1 :: Event.sleepMs 2000 ::
              (probeVCO env (m + 1) (i + 1) (c + 2000)).1,
              (probeVCO env (m + 1) (i + 1) (c + 2000)).2) := by
          simp [probeVCO, h]
        rw [hrw]
        have := ih (i + 1) (c + 2000)
        simp only [attemptsOf, isAttempt, List.filter, List.length_cons] at this ⊢
        omega

lemma probeTS_attempts_le (env : Env) : ∀ f i c,
    attemptsOf (probeTS env f i c).1 ≤ f := by
  intro f
  induction f with
  | zero => intro i c; simp [probeTS, attemptsOf]
  | succ n ih =>
    intro i c
    by_cases h : env.connectOk i
    · simp [probeTS, h, attemptsOf, isAttempt, List.filter]
    · have hrw : probeTS env (n + 1) i c =
          (Event.connectAttempt i 1 :: Event.sleepMs 2000 ::
            (probeTS env n (i + 1) (c + 2000)).1,
            (probeTS env n (i + 1) (c + 2000)).2) := by
        simp [probeTS, h]
      rw [hrw]
      have := ih (i + 1) (c + 2000)
      simp only [attemptsOf, isAttempt, List.filter, List.length_cons] at this ⊢
      omega

lemma probeVCO_first_success (env : Env) : ∀ k f i c, k < f →
    env.connectOk (i + k) = true →
    (∀ j, j < k → env.connectOk (i + j) = false) →
    ∃ pre, (probeVCO env f i c).1 = pre ++ [Event.connectAttempt (i + k) 1] ∧
      attemptsOf pre = k ∧ sleepsOf pre = k ∧ (probeVCO env f i c).2.2 = none := by
  intro k
  induction k with
  | zero =>
    intro f i c hf hs _
    simp only [Nat.add_zero] at hs
    match f, hf with
    | 1, _ =>
      refine ⟨[], ?_⟩
      simp [probeVCO, hs, attemptsOf, sleepsOf]
    | m + 2, _ =>
      refine ⟨[], ?_⟩
      simp [probeVCO, hs, attemptsOf, sleepsOf]
  | succ n ih =>
    intro f i c hf hs hfail
    have hi : env.connectOk i = false := by
      have := hfail 0 (Nat.succ_pos n)
      simpa using this
    match f, hf with
    | m + 2, hf =>
      have hrw : probeVCO env (m + 2) i c =
          (Event.connectAttempt i 1 :: Event.sleepMs 2000 ::
            (probeVCO env (m + 1) (i + 1) (c + 2000)).1,
            (probeVCO env (m + 1) (i + 1) (c + 2000)).2) := by
        simp [probeVCO, hi]
      have hs' : env.connectOk (i + 1 + n) = true := by
        have : i + 1 + n = i + (n + 1) := by omega
        rw [this]; exact hs
      have hfail' : ∀ j, j < n → env.connectOk (i + 1 + j) = false := by
        intro j hj
        have : i + 1 + j = i + (j + 1) := by omega
        rw [this]; exact hfail (j + 1) (by omega)
      obtain ⟨pre, h1, h2, h3, h4⟩ := ih (m + 1) (i + 1) (c + 2000) (by omega) hs' hfail'
      refine ⟨Event.connectAttempt i 1 :: Event.sleepMs 2000 :: pre, ?_, ?_, ?_, ?_⟩
      · rw [hrw]
        simp only [h1]
        have : i + 1 + n = i + (n + 1) := by omega
        rw [this]
        simp
      · simp only [attemptsOf, isAttempt, List.filter, List.length_cons] at h2 ⊢
        omega
      · simp only [sleepsOf, isSleep, List.filter, List.length_cons] at h3 ⊢
        omega
      · rw [hrw]
        exact h4

lemma pollLoop_notfound (env : Env)
    (h : ∀ t, (env.logsAt t).any (fun log => pyIn "CHART_CREATED" log) = false) :
    ∀ f it c, ((pollLoop env f it c).1.filter isPollCheck).length = f := by
  intro f
  induction f with
  | zero => intro it c; simp [pollLoop]
  | succ n ih =>
    intro it c
    have hrw : pollLoop env (n + 1) it c =
        (Event.pollCheck it :: Event.sleepMs 500 ::
          (pollLoop env n (it + 1) (c + 500)).1,
          (pollLoop env n (it + 1) (c + 500)).2) := by
      simp [pollLoop, h c]
    rw [hrw]
    have := ih (it + 1) (c + 500)
    simp only [List.filter, isPollCheck, List.length_cons] at this ⊢
    omega

lemma count_killpg_concat (A : List Event) (h : Event.killpg ∉ A) :
    (A ++ [Event.killpg]).count Event.killpg = 1 ∧
      (A ++ [Event.killpg]).getLast? = some Event.killpg := by
  constructor
  · rw [List.count_append, List.count_eq_zero.mpr h]
    rfl
  · exact List.getLast?_concat A

/-- If a list splits as a prefix with no `P`-element, one `P`-element and a
suffix with no `P`-element, then any decomposition of it around a
`P`-element must be exactly that split. -/
lemma split_unique {P : Event → Bool} :
    ∀ (C l₁ : List Event) {x y : Event} {D l₂ : List Event},
      (∀ e ∈ C, P e = false) → (∀ e ∈ D, P e = false) →
      P x = true → P y = true →
      C ++ x :: D = l₁ ++ y :: l₂ → l₁ = C ∧ y = x ∧ l₂ = D := by
  intro C
  induction C with
  | nil =>
    intro l₁ x y D l₂ _ hD hx hy heq
    cases l₁ with
    | nil =>
      simp only [List.nil_append] at heq
      obtain ⟨h1, h2⟩ := List.cons.inj heq
      exact ⟨rfl, h1.symm, h2.symm⟩
    | cons a l₁ =>
      simp only [List.nil_append, List.cons_append] at heq
      obtain ⟨h1, h2⟩ := List.cons.inj heq
      exfalso
      have hyD : y ∈ D := by
        rw [h2]
        simp
      rw [hD y hyD] at hy
      exact Bool.false_ne_true hy
  | cons c C ih =>
    intro l₁ x y D l₂ hC hD hx hy heq
    cases l₁ with
    | nil =>
      simp only [List.cons_append, List.nil_append] at heq
      obtain ⟨h1, _⟩ := List.cons.inj heq
      exfalso
      have : P c = false := hC c (by simp)
      rw [← h1, this] at hy
      exact Bool.false_ne_true hy
    | cons a l₁ =>
      simp only [List.cons_append] at heq
      obtain ⟨h1, h2⟩ := List.cons.inj heq
      have hC' : ∀ e ∈ C, P e = false := fun e he => hC e (by simp [he])
      obtain ⟨h3, h4, h5⟩ := ih l₁ hC' hD hx hy h2
      exact ⟨by rw [h3, h1], h4, h5⟩

lemma killpg_not_mem_probeVCO (env : Env) (f i c : Nat) :
    Event.killpg ∉ (probeVCO env f i c).1 := by
  intro h
  rcases probeVCO_mem env f i c _ h with ⟨j, hj⟩ | hj | hj <;> simp at hj

lemma killpg_not_mem_probeTS (env : Env) (f i c : Nat) :
    Event.killpg ∉ (probeTS env f i c).1 := by
  intro h
  rcases probeTS_mem env f i c _ h with ⟨j, hj⟩ | hj <;> simp at hj

lemma killpg_not_mem_vcoBody (env : Env) (c : Nat) :
    Event.killpg ∉ (vcoBody env c).1 := by
  intro h
  by_cases hn : env.navOk
  · simp [vcoBody, hn] at h
    rcases vcoBodyRest_mem env c _ h with ⟨j, hj⟩ | ⟨n, hj⟩ | hj | hj <;>
      simp at hj
  · simp [vcoBody, hn] at h

lemma vcoVerify_concat_form (env : Env) :
    ∃ A, (vcoVerify env).1 = A ++ [Event.killpg] ∧ Event.killpg ∉ A := by
  cases hpr : (probeVCO env 60 0 0).2.2 with
  | some e =>
    refine ⟨Event.killPort3000 :: Event.spawnServer :: (probeVCO env 60 0 0).1,
      ?_, ?_⟩
    · simp [vcoVerify, hpr]
    · intro hmem
      simp only [List.mem_cons] at hmem
      rcases hmem with h | h | h
      · exact absurd h (by simp)
      · exact absurd h (by simp)
      · exact killpg_not_mem_probeVCO env 60 0 0 h
  | none =>
    refine ⟨Event.killPort3000 :: Event.spawnServer :: ((probeVCO env 60 0 0).1 ++
      (vcoBody env (probeVCO env 60 0 0).2.1).1), ?_, ?_⟩
    · simp [vcoVerify, hpr]
    · intro hmem
      simp only [List.mem_cons, List.mem_append] at hmem
      rcases hmem with h | h | h | h
      · exact absurd h (by simp)
      · exact absurd h (by simp)
      · exact killpg_not_mem_probeVCO env 60 0 0 h
      · exact killpg_not_mem_vcoBody env _ h

lemma tsVerify_concat_form (env : Env) :
    ∃ A, (tsVerify env).1 = A ++ [Event.killpg] ∧ Event.killpg ∉ A := by
  have hbase : ∀ L : List Event, Event.killpg ∉ L →
      Event.killpg ∉ Event.killPort3000 :: Event.spawnServer ::
        ((probeTS env 60 0 0).1 ++ L) := by
    intro L hL hmem
    simp only [List.mem_cons, List.mem_append] at hmem
    rcases hmem with h | h | h | h
    · exact absurd h (by simp)
    · exact absurd h (by simp)
    · exact killpg_not_mem_probeTS env 60 0 0 h
    · exact hL h
  by_cases h1 : env.tsNavOk
  · by_cases h2 : env.tsScreenshotOk
    · refine ⟨Event.killPort3000 :: Event.spawnServer :: ((probeTS env 60 0 0).1 ++
        [Event.launchBrowser, Event.newPage, Event.navigate tsUrl,
          Event.sleepMs 5000, Event.screenshot "verification/verification.png"]),
        ?_, hbase _ (by simp)⟩
      simp [tsVerify, h1, h2]
    · refine ⟨Event.killPort3000 :: Event.spawnServer :: ((probeTS env 60 0 0).1 ++
        [Event.launchBrowser, Event.newPage, Event.navigate tsUrl,
          Event.sleepMs 5000, Event.screenshot "verification/verification.png"]),
        ?_, hbase _ (by simp)⟩
      simp [tsVerify, h1, h2]
  · refine ⟨Event.killPort3000 :: Event.spawnServer :: ((probeTS env 60 0 0).1 ++
      [Event.launchBrowser, Event.newPage, Event.navigate tsUrl]),
      ?_, hbase _ (by simp)⟩
    simp [tsVerify, h1]

/-! Claim theorems. -/

/-- C1: in both process-supervising harness variants, every run — whatever
its outcome (returned result, returned False, or any raised exception) —
performs the process-group termination step exactly once, as the very last
action before the harness returns or propagates; the `try/except: pass`
around `os.killpg` means a process that already exited never raises a new
fatal error (the teardown leaves the outcome untouched by construction). -/
theorem c1_process_group_terminated_exactly_once (env : Env) :
    (vcoVerify env).1.count Event.killpg = 1 ∧
    (tsVerify env).1.count Event.killpg = 1 ∧
    (vcoVerify env).1.getLast? = some Event.killpg ∧
    (tsVerify env).1.getLast? = some Event.killpg := by
  obtain ⟨A, hA, hnA⟩ := vcoVerify_concat_form env
  obtain ⟨B, hB, hnB⟩ := tsVerify_concat_form env
  have h1 := count_killpg_concat A hnA
  have h2 := count_killpg_concat B hnB
  rw [hA, hB]
  exact ⟨h1.1, h2.1, h1.2, h2.2⟩

/-- C10: both process-supervising harness variants begin every run by
unconditionally killing whatever process is listening on TCP port 3000
(`kill $(lsof -t -i :3000)`), before spawning the target application —
a side effect on processes the harness did not start, performed even in runs
that later fail at the very first step. -/
theorem c10_unconditional_port_kill_before_spawn (env : Env) :
    (∃ r, (vcoVerify env).1 =
      Event.killPort3000 :: Event.spawnServer :: r) ∧
    (∃ r, (tsVerify env).1 =
      Event.killPort3000 :: Event.spawnServer :: r) := by
  constructor
  · cases hpr : (probeVCO env 60 0 0).2.2 with
    | some e =>
      exact ⟨(probeVCO env 60 0 0).1 ++ [Event.killpg], by simp [vcoVerify, hpr]⟩
    | none =>
      exact ⟨(probeVCO env 60 0 0).1 ++ (vcoBody env (probeVCO env 60 0 0).2.1).1 ++
        [Event.killpg], by simp [vcoVerify, hpr]⟩
  · by_cases h1 : env.tsNavOk
    · by_cases h2 : env.tsScreenshotOk
      · exact ⟨(probeTS env 60 0 0).1 ++ [Event.launchBrowser, Event.newPage,
          Event.navigate tsUrl, Event.sleepMs 5000,
          Event.screenshot "verification/verification.png", Event.killpg],
          by simp [tsVerify, h1, h2]⟩
      · exact ⟨(probeTS env 60 0 0).1 ++ [Event.launchBrowser, Event.newPage,
          Event.navigate tsUrl, Event.sleepMs 5000,
          Event.screenshot "verification/verification.png", Event.killpg],
          by simp [tsVerify, h1, h2]⟩
    · exact ⟨(probeTS env 60 0 0).1 ++ [Event.launchBrowser, Event.newPage,
        Event.navigate tsUrl, Event.killpg], by simp [tsVerify, h1]⟩

/-- C9: the readiness probe is bounded and short-circuiting — at most 60
connection attempts, every attempt with a 1-second connect timeout, every
inter-attempt sleep 2000 ms, and when attempt `k` is the first to succeed
the loop ends right there: the trace is `k` failed attempts (with their `k`
sleeps) followed by the successful attempt as its final event, with no
further attempt or sleep, and nothing is raised. -/
theorem c9_probe_bounded_and_short_circuiting (env : Env) (k : Nat)
    (hk : k < 60) (hs : env.connectOk k = true)
    (hf : ∀ j, j < k → env.connectOk j = false) :
    attemptsOf (probeVCO env 60 0 0).1 ≤ 60 ∧
    attemptsOf (probeTS env 60 0 0).1 ≤ 60 ∧
    (∀ j t, Event.connectAttempt j t ∈ (probeVCO env 60 0 0).1 → t = 1) ∧
    (∀ n, Event.sleepMs n ∈ (probeVCO env 60 0 0).1 → n = 2000) ∧
    (∃ pre, (probeVCO env 60 0 0).1 = pre ++ [Event.connectAttempt k 1] ∧
      attemptsOf pre = k ∧ sleepsOf pre = k) ∧
    (probeVCO env 60 0 0).2.2 = none := by
  obtain ⟨pre, hp1, hp2, hp3, hp4⟩ := probeVCO_first_success env k 60 0 0 hk
    (by simpa using hs) (fun j hj => by simpa using hf j hj)
  refine ⟨probeVCO_attempts_le env 60 0 0, probeTS_attempts_le env 60 0 0,
    ?_, ?_, ⟨pre, by simpa using hp1, hp2, hp3⟩, hp4⟩
  · intro j t hmem
    rcases probeVCO_mem env 60 0 0 _ hmem with ⟨j2, hj⟩ | hj | hj
    · simp only [Event.connectAttempt.injEq] at hj
      exact hj.2
    · exact absurd hj (by simp)
    · exact absurd hj (by simp)
  · intro n hmem
    rcases probeVCO_mem env 60 0 0 _ hmem with ⟨j2, hj⟩ | hj | hj
    · exact absurd hj (by simp)
    · simp only [Event.sleepMs.injEq] at hj
      exact hj
    · exact absurd hj (by simp)

theorem c9_probe_bounded_and_short_circuiting_witness :
    attemptsOf (probeVCO thirdTryEnv 60 0 0).1 ≤ 60 ∧
    attemptsOf (probeTS thirdTryEnv 60 0 0).1 ≤ 60 ∧
    (∀ j t, Event.connectAttempt j t ∈ (probeVCO thirdTryEnv 60 0 0).1 → t = 1) ∧
    (∀ n, Event.sleepMs n ∈ (probeVCO thirdTryEnv 60 0 0).1 → n = 2000) ∧
    (∃ pre, (probeVCO thirdTryEnv 60 0 0).1 =
      pre ++ [Event.connectAttempt 2 1] ∧
      attemptsOf pre = 2 ∧ sleepsOf pre = 2) ∧
    (probeVCO thirdTryEnv 60 0 0).2.2 = none :=
  c9_probe_bounded_and_short_circuiting thirdTryEnv 2 (by decide) (by decide)
    (by decide)

/-- C3 counterexample: the claim quantifies over every run of both harness
variants, but in `take_screenshot.py` exhausting the full 60-attempt retry
budget raises nothing — the loop simply falls through and the run continues
(here all the way to a returned screenshot path), with no stderr diagnostic
ever surfaced. -/
theorem c3_counterexample :
    (tsVerify noPortEnv).2 = Outcome.retPath "verification/verification.png" ∧
    Event.printStderr ∉ (tsVerify noPortEnv).1 ∧
    attemptsOf (probeTS noPortEnv 60 0 0).1 = 60 := by decide

/-- C3 amended: in the `verify_chart_optimization.py` harness, a run whose
readiness probe exhausts all 60 attempts raises the startup failure, prints
the target's captured error stream before raising, and still terminates the
process group exactly once; the `take_screenshot.py` variant instead falls
through its exhausted probe loop without raising. -/
theorem c3_startup_exhaustion_raises_in_vco (env : Env)
    (h : ∀ i, i < 60 → env.connectOk i = false) :
    (vcoVerify env).2 = Outcome.raised Err.serverFailedToStart ∧
    Event.printStderr ∈ (vcoVerify env).1 ∧
    (vcoVerify env).1.count Event.killpg = 1 := by
  have hall := probeVCO_allfail env 60 0 0 (by omega) (fun j h1 h2 => h j (by omega))
  have herr : (probeVCO env 60 0 0).2.2 = some Err.serverFailedToStart := hall.1
  refine ⟨by simp [vcoVerify, herr], ?_, ?_⟩
  · simp [vcoVerify, herr]
    exact hall.2
  · have hform : (vcoVerify env).1 = (Event.killPort3000 :: Event.spawnServer ::
        (probeVCO env 60 0 0).1) ++ [Event.killpg] := by
      simp [vcoVerify, herr]
    rw [hform]
    refine (count_killpg_concat _ ?_).1
    intro hmem
    simp only [List.mem_cons] at hmem
    rcases hmem with h1 | h1 | h1
    · exact absurd h1 (by simp)
    · exact absurd h1 (by simp)
    · exact killpg_not_mem_probeVCO env 60 0 0 h1

theorem c3_startup_exhaustion_raises_in_vco_witness :
    (vcoVerify noPortEnv).2 = Outcome.raised Err.serverFailedToStart ∧
    Event.printStderr ∈ (vcoVerify noPortEnv).1 ∧
    (vcoVerify noPortEnv).1.count Event.killpg = 1 :=
  c3_startup_exhaustion_raises_in_vco noPortEnv (fun _ _ => rfl)

lemma navigate_not_mem_vcoBodyRest (env : Env) (c : Nat) (v : String) :
    Event.navigate v ∉ (vcoBodyRest env c).1 := by
  intro h
  rcases vcoBodyRest_mem env c _ h with ⟨j, hj⟩ | ⟨n, hj⟩ | hj | hj <;> simp at hj

/-- C6: in the only harness that observes diagnostic events
(`verify_chart_optimization.py`), the console-output and page-error
subscriptions appear in the run's trace strictly before any navigation: every
decomposition of the trace around a navigation event has both subscription
events in the prefix. -/
theorem c6_subscribe_then_navigate (env : Env) (l₁ l₂ : List Event) (u : String)
    (h : (vcoVerify env).1 = l₁ ++ Event.navigate u :: l₂) :
    Event.subscribeConsole ∈ l₁ ∧ Event.subscribePageError ∈ l₁ := by
  cases hpr : (probeVCO env 60 0 0).2.2 with
  | some e =>
    exfalso
    have hmem : Event.navigate u ∈ (vcoVerify env).1 := by
      rw [h]; simp
    simp [vcoVerify, hpr] at hmem
    rcases probeVCO_mem env 60 0 0 _ hmem with ⟨j, hj⟩ | hj | hj <;> simp at hj
  | none =>
    have key : ∀ R : List Event, (∀ v, Event.navigate v ∉ R) →
        (vcoVerify env).1 =
          (Event.killPort3000 :: Event.spawnServer :: ((probeVCO env 60 0 0).1 ++
            [Event.launchBrowser, Event.newPage, Event.subscribeConsole,
              Event.subscribePageError])) ++
            Event.navigate vcoUrl :: (R ++ [Event.killpg]) →
        Event.subscribeConsole ∈ l₁ ∧ Event.subscribePageError ∈ l₁ := by
      intro R hR heq
      have hC : ∀ e ∈ Event.killPort3000 :: Event.spawnServer ::
          ((probeVCO env 60 0 0).1 ++ [Event.launchBrowser, Event.newPage,
            Event.subscribeConsole, Event.subscribePageError]),
          isNavigate e = false := by
        intro e he
        simp only [List.mem_cons, List.mem_append] at he
        rcases he with he | he | he | he
        · simp [he, isNavigate]
        · simp [he, isNavigate]
        · rcases probeVCO_mem env 60 0 0 _ he with ⟨j, hj⟩ | hj | hj <;>
            simp [hj, isNavigate]
        · simp only [List.mem_cons, List.not_mem_nil, or_false] at he
          rcases he with he | he | he | he <;> simp [he, isNavigate]
      have hD : ∀ e ∈ R ++ [Event.killpg], isNavigate e = false := by
        intro e he
        simp only [List.mem_append, List.mem_singleton] at he
        rcases he with he | he
        · cases e with
          | navigate v => exact absurd he (hR v)
          | _ => simp [isNavigate]
        · simp [he, isNavigate]
      have hsplit := split_unique _ l₁ hC hD (by simp [isNavigate])
        (by simp [isNavigate]) (heq.symm.trans h)
      constructor
      · rw [hsplit.1]; simp
      · rw [hsplit.1]; simp
    by_cases hn : env.navOk
    · refine key (vcoBodyRest env (probeVCO env 60 0 0).2.1).1
        (fun v => navigate_not_mem_vcoBodyRest env _ v) ?_
      simp [vcoVerify, hpr, vcoBody, hn]
    · refine key [] (by simp) ?_
      simp [vcoVerify, hpr, vcoBody, hn]

theorem c6_subscribe_then_navigate_witness :
    Event.subscribeConsole ∈ [Event.killPort3000, Event.spawnServer,
      Event.connectAttempt 0 1, Event.launchBrowser, Event.newPage,
      Event.subscribeConsole, Event.subscribePageError] ∧
    Event.subscribePageError ∈ [Event.killPort3000, Event.spawnServer,
      Event.connectAttempt 0 1, Event.launchBrowser, Event.newPage,
      Event.subscribeConsole, Event.subscribePageError] :=
  c6_subscribe_then_navigate clickFailEnv
    [Event.killPort3000, Event.spawnServer, Event.connectAttempt 0 1,
      Event.launchBrowser, Event.newPage, Event.subscribeConsole,
      Event.subscribePageError]
    [Event.pollCheck 0, Event.sleepMs 2000, Event.click "15m", Event.killpg]
    vcoUrl (by decide)

/-- C2 counterexample: the code computes no event-count differential oracle
at all.  In a run where the log already holds exactly one creation marker and
no new marker ever appears after the interaction (total == initial == 1,
updates == 0), `verify` still completes, returns the counts, and the script
exits 0 — the outcome is in no way "not a pass". -/
theorem c2_counterexample :
    (vcoVerify goodEnv).2 =
      Outcome.retResult [("initial", 1), ("total", 1), ("updates", 0)] ∧
    vcoMain goodEnv = 0 ∧
    (vcoVerify goodEnv).2 ≠ Outcome.retFalse := by decide

/-- C2 amended: after the interaction the harness merely re-reads the marker
counts and returns them; no `totalCount == initialCount + 1` or
`updateCount >= 1` condition is checked.  In particular a run whose log never
changes after the baseline still returns the (unchanged) counts as its
completed result instead of failing. -/
theorem c2_no_delta_oracle (env : Env) (L : List String)
    (hconn : env.connectOk 0 = true) (hnav : env.navOk = true)
    (hclick : env.clickOk = true) (hshot : env.screenshotOk = true)
    (hL : ∀ t, env.logsAt t = L)
    (hfound : L.any (fun log => pyIn "CHART_CREATED" log) = true)
    (hc : L.count "CHART_CREATED" ≠ 0) :
    (vcoVerify env).2 = Outcome.retResult
      [("initial", L.count "CHART_CREATED"),
        ("total", L.count "CHART_CREATED"),
        ("updates", L.count "DATA_UPDATED")] := by
  have hp := probeVCO_sixty_success0 env hconn
  have hpoll := pollLoop_thirty_found env 0 (by rw [hL 0]; exact hfound)
  simp [vcoVerify, hp, vcoBody, hnav, vcoBodyRest, hpoll, hL, hc, hclick, hshot]

theorem c2_no_delta_oracle_witness :
    (vcoVerify goodEnv).2 =
      Outcome.retResult [("initial", 1), ("total", 1), ("updates", 0)] := by
  have h := c2_no_delta_oracle goodEnv ["CHART_CREATED"] rfl rfl rfl rfl
    (fun _ => rfl) (by decide) (by decide)
  rw [h]
  decide

/-- C4 counterexample: when the required "CHART_CREATED" marker is never
observed, `verify` returns False (no EventTimeoutError is raised — the
outcome is a plain return value, not an exception) and the run's trace
contains no screenshot event whatsoever, so no diagnostic screenshot file is
produced on this failure path. -/
theorem c4_counterexample :
    (vcoVerify noLogEnv).2 = Outcome.retFalse ∧
    (vcoVerify noLogEnv).1.filter isScreenshot = [] ∧
    vcoMain noLogEnv = 0 := by decide

/-- C4 amended: a run in which no log line ever contains the required marker
polls the full 30 iterations, then fails by returning False (the printed
log dump aside, nothing is raised), takes no screenshot at all on this path,
and still performs teardown. -/
theorem c4_marker_timeout_returns_false_no_screenshot (env : Env)
    (hconn : env.connectOk 0 = true) (hnav : env.navOk = true)
    (hnolog : ∀ t, (env.logsAt t).any (fun log => pyIn "CHART_CREATED" log) = false) :
    (vcoVerify env).2 = Outcome.retFalse ∧
    (vcoVerify env).1.filter isScreenshot = [] ∧
    ((vcoVerify env).1.filter isPollCheck).length = 30 ∧
    Event.killpg ∈ (vcoVerify env).1 := by
  have hp := probeVCO_sixty_success0 env hconn
  have hcount : ∀ t, (env.logsAt t).count "CHART_CREATED" = 0 := fun t =>
    count_zero_of_no_sub _ _ (hnolog t)
  have hbody : vcoBodyRest env 0 =
      ((pollLoop env 30 0 0).1 ++ [Event.sleepMs 2000], Outcome.retFalse) := by
    unfold vcoBodyRest
    rw [if_pos (hcount _)]
  have hplshot : (pollLoop env 30 0 0).1.filter isScreenshot = [] := by
    rw [List.filter_eq_nil_iff]
    intro a ha
    rcases pollLoop_mem env 30 0 0 _ ha with ⟨j, hj⟩ | hj <;>
      simp [hj, isScreenshot]
  have hpllen := pollLoop_notfound env hnolog 30 0 0
  have htrace : (vcoVerify env).1 = Event.killPort3000 :: Event.spawnServer ::
      ([Event.connectAttempt 0 1] ++ ([Event.launchBrowser, Event.newPage,
        Event.subscribeConsole, Event.subscribePageError, Event.navigate vcoUrl] ++
        ((pollLoop env 30 0 0).1 ++ [Event.sleepMs 2000])) ++ [Event.killpg]) := by
    simp [vcoVerify, hp, vcoBody, hnav, hbody]
  refine ⟨by simp [vcoVerify, hp, vcoBody, hnav, hbody], ?_, ?_, ?_⟩
  · rw [htrace]
    simp [List.filter_append, List.filter, isScreenshot, hplshot]
  · rw [htrace]
    simp [List.filter_append, List.filter, isPollCheck, hpllen]
  · rw [htrace]
    simp

theorem c4_marker_timeout_returns_false_no_screenshot_witness :
    (vcoVerify noLogEnv).2 = Outcome.retFalse ∧
    (vcoVerify noLogEnv).1.filter isScreenshot = [] ∧
    ((vcoVerify noLogEnv).1.filter isPollCheck).length = 30 ∧
    Event.killpg ∈ (vcoVerify noLogEnv).1 :=
  c4_marker_timeout_returns_false_no_screenshot noLogEnv rfl rfl (fun _ => rfl)

/-- C5 counterexample: in `verify_chart_optimization.py` the success-path
`page.screenshot` is not protected by any handler, so its failure propagates
and flips the run's outcome: the same environment that completes with the
returned result when the capture succeeds instead raises the capture error
when it fails. -/
theorem c5_counterexample :
    (vcoVerify shotFailEnv).2 = Outcome.raised Err.screenshotError ∧
    (vcoVerify goodEnv).2 =
      Outcome.retResult [("initial", 1), ("total", 1), ("updates", 0)] := by
  decide

/-- C5 amended: only `verify_chart.py`'s diagnostic error-screenshot is
swallowed — toggling its success changes neither the exit status nor the
printed outcome lines; the optimization harness's success-path capture is
unprotected, so whenever it fails the run can never return its result. -/
theorem c5_capture_swallowed_only_in_vc (env : Env) (b : Bool) :
    ((vcMain { env with errShotOk := b }).2 = (vcMain env).2) ∧
    ((vcMain { env with errShotOk := b }).1.filter isPrintLine =
      (vcMain env).1.filter isPrintLine) ∧
    (env.screenshotOk = false → ∀ d, (vcoVerify env).2 ≠ Outcome.retResult d) := by
  have hbody : vcBody { env with errShotOk := b } = vcBody env := by
    simp [vcBody]
  refine ⟨?_, ?_, ?_⟩
  · cases h2 : (vcBody env).2 <;> simp [vcMain, hbody, h2]
  · cases h2 : (vcBody env).2 with
    | none => simp [vcMain, hbody, h2]
    | some e =>
      cases b <;> cases h3 : env.errShotOk <;>
        simp [vcMain, hbody, h2, h3, List.filter_append, List.filter, isPrintLine]
  · intro hs d
    cases hpr : (probeVCO env 60 0 0).2.2 with
    | some e => simp [vcoVerify, hpr]
    | none =>
      by_cases hn : env.navOk
      · simp only [vcoVerify, hpr, vcoBody, hn, if_true]
        unfold vcoBodyRest
        rw [hs]
        split_ifs <;> simp_all
      · simp [vcoVerify, hpr, vcoBody, hn]

theorem c5_capture_swallowed_only_in_vc_witness :
    (vcMain { canvasFailEnv with errShotOk := false }).2 =
      (vcMain canvasFailEnv).2 ∧
    (vcoVerify shotFailEnv).2 ≠
      Outcome.retResult [("initial", 1), ("total", 1), ("updates", 0)] :=
  ⟨(c5_capture_swallowed_only_in_vc canvasFailEnv false).1,
    (c5_capture_swallowed_only_in_vc shotFailEnv false).2.2 rfl _⟩

/-- C7 counterexample: no harness variant calls `sys.exit`.  A run of
`verify_chart_optimization.py` whose verification fails by returning False
exits with status 0, and a run of `verify_chart.py` that prints
"Verification failed" (its exception swallowed) also exits with status 0. -/
theorem c7_counterexample :
    (vcoVerify noLogEnv).2 = Outcome.retFalse ∧ vcoMain noLogEnv = 0 ∧
    Event.printLine "Verification failed" ∈ (vcMain canvasFailEnv).1 ∧
    (vcMain canvasFailEnv).2 = 0 := by decide

/-- C7 amended: the exit status is nonzero exactly when an exception escapes
`verify` uncaught (`verify_chart_optimization.py`), so a failed run that
returns False exits 0, and `verify_chart.py` exits 0 whenever the browser
close succeeds — even when verification failed. -/
theorem c7_exit_status_nonzero_only_on_uncaught_exception (env : Env) :
    (vcoMain env = 1 ↔ ∃ e, (vcoVerify env).2 = Outcome.raised e) ∧
    ((vcoVerify env).2 = Outcome.retFalse → vcoMain env = 0) ∧
    (env.closeOk = true → (vcMain env).2 = 0) := by
  refine ⟨?_, ?_, ?_⟩
  · cases h : (vcoVerify env).2 <;> simp [vcoMain, h]
  · intro h
    simp [vcoMain, h]
  · intro h
    cases h2 : (vcBody env).2 <;> simp [vcMain, h2, h]

theorem c7_exit_status_nonzero_only_on_uncaught_exception_witness :
    vcoMain noLogEnv = 0 ∧ (vcMain canvasFailEnv).2 = 0 :=
  ⟨(c7_exit_status_nonzero_only_on_uncaught_exception noLogEnv).2.1 (by decide),
    (c7_exit_status_nonzero_only_on_uncaught_exception canvasFailEnv).2.2 rfl⟩

/-- C8 counterexample: the structured result returned by a completed
interaction run has exactly the three keys "initial", "total" and "updates";
there is no fourth "success" field. -/
theorem c8_counterexample :
    resultKeys (vcoVerify goodEnv).2 = ["initial", "total", "updates"] ∧
    "success" ∉ resultKeys (vcoVerify goodEnv).2 ∧
    (resultKeys (vcoVerify goodEnv).2).length = 3 := by decide

/-- C8 amended: every completed interaction run returns a result dict built
once, whose fields are exactly initial, total and updates (ints) — there is
no success field. -/
theorem c8_result_has_three_fields (env : Env) (d : List (String × Nat))
    (h : (vcoVerify env).2 = Outcome.retResult d) :
    d.map Prod.fst = ["initial", "total", "updates"] ∧
    "success" ∉ d.map Prod.fst := by
  cases hpr : (probeVCO env 60 0 0).2.2 with
  | some e => simp [vcoVerify, hpr] at h
  | none =>
    by_cases hn : env.navOk
    · simp only [vcoVerify, hpr, vcoBody, hn, if_true] at h
      unfold vcoBodyRest at h
      split_ifs at h with h1 h2 h3
      simp only [Outcome.retResult.injEq] at h
      rw [← h]
      simp
    · simp [vcoVerify, hpr, vcoBody, hn] at h

theorem c8_result_has_three_fields_witness :
    [("initial", (1 : Nat)), ("total", 1), ("updates", 0)].map Prod.fst =
      ["initial", "total", "updates"] ∧
    "success" ∉ [("initial", (1 : Nat)), ("total", 1), ("updates", 0)].map
      Prod.fst :=
  c8_result_has_three_fields goodEnv
    [("initial", 1), ("total", 1), ("updates", 0)] (by decide)

end ChartHarness
